import Mathlib

/-!
Verification of the vendor-onboarding risk-assessment pipeline.

Shallow embedding of the Python sources:
  * `lambda/advanced-risk-orchestrator/lambda_function.py` (namespace `RiskOrch`)
  * `other/lambda/combine-scores/lambda_function.py`       (namespace `CombineScores`)
  * `lambda/entity-resolution/lambda_function.py`          (namespace `EntityRes`)

Python floats are modelled as rationals (`ℚ`); Python dicts whose keys the
orchestrator reads are modelled as structures with `Option`-valued fields
(`none` models an absent key, mirroring `dict.get`); a Python function that
may raise is modelled as `Except String`.
-/

/-- Round-half-to-even of a rational to an integer, modelling Python `round(x)`. -/
def roundHalfEven (q : ℚ) : ℤ :=
  let f := ⌊q⌋
  let d := q - f
  if d < 1/2 then f
  else if 1/2 < d then f + 1
  else if Even f then f else f + 1

/-- Round to `n` decimal digits, modelling Python `round(x, n)`. -/
def roundTo (n : ℕ) (q : ℚ) : ℚ :=
  (roundHalfEven (q * 10 ^ n) : ℚ) / 10 ^ n

namespace RiskOrch

/-- One element of an entity-resolution `matchedEntities` list; the orchestrator
only reads `m.get('severity')`. -/
structure MatchedEntity where
  severity : Option String
  deriving Repr, DecidableEq

/-- The dict returned by one analysis lambda (or synthesized on failure).
Field `riskScore` models the signal's own score key (`networkRiskScore`,
`entityRiskScore`, ...), `riskFactors` the corresponding factors key. -/
structure Payload where
  riskScore : Option ℚ
  riskFactors : Option (List String)
  complianceStatus : Option String
  matchedEntities : Option (List MatchedEntity)
  detectedAnomalies : Option (List String)
  error : Option String
  deriving Repr, DecidableEq

/-- The empty dict `{}`, default of `results.get(name, {})`. -/
def Payload.empty : Payload :=
  ⟨none, none, none, none, none, none⟩

/-- The `results` dict built by `invoke_parallel_analyses`; a `none` entry
models an absent key (downstream code always guards with `.get(name, {})`). -/
structure Results where
  network : Option Payload
  entity : Option Payload
  behavioral : Option Payload
  payment : Option Payload
  legal : Option Payload
  deriving Repr, DecidableEq

/-- `results.get(name, {})`. -/
def getP (o : Option Payload) : Payload := o.getD Payload.empty

/-- The module-level `WEIGHTS` dict (risk weights for the final score). -/
def WEIGHTS (name : String) : ℚ :=
  if name = "network" then 0.15
  else if name = "entity" then 0.30
  else if name = "behavioral" then 0.15
  else if name = "payment" then 0.15
  else if name = "legal" then 0.15
  else if name = "fraud" then 0.05
  else if name = "content" then 0.05
  else 0

/-- The weighted sum computed at the top of `calculate_comprehensive_risk`. -/
def weightedSum (network entity behavioral payment legal fraud content : ℚ) : ℚ :=
  network * WEIGHTS "network" +
  entity * WEIGHTS "entity" +
  behavioral * WEIGHTS "behavioral" +
  payment * WEIGHTS "payment" +
  legal * WEIGHTS "legal" +
  fraud * WEIGHTS "fraud" +
  content * WEIGHTS "content"

/-- `calculate_comprehensive_risk`: weighted sum, entity/legal override floors,
then `min(1.0, ...)`. -/
def calculate_comprehensive_risk
    (network entity behavioral payment legal fraud content : ℚ) : ℚ :=
  let comprehensive := weightedSum network entity behavioral payment legal fraud content
  let comprehensive := if entity ≥ 0.95 then max comprehensive 0.95 else comprehensive
  let comprehensive := if legal ≥ 0.9 then max comprehensive 0.9 else comprehensive
  min 1 comprehensive

/-- `determine_recommendation`: structural block checks first, then score bands. -/
def determine_recommendation (risk_score : ℚ) (results : Results) : String :=
  let entity_data := getP results.entity
  if entity_data.complianceStatus = some "BLOCKED" then "BLOCKED"
  else if (entity_data.matchedEntities.getD []).any
      (fun m => m.severity == some "CRITICAL") then "BLOCKED"
  else if risk_score ≥ 0.7 then "MANUAL_REVIEW"
  else if risk_score ≥ 0.5 then "ENHANCED_DUE_DILIGENCE"
  else if risk_score ≥ 0.3 then "STANDARD_REVIEW"
  else "AUTO_APPROVE"

/-- `compile_risk_factors`: concatenate each signal's factors, namespaced. -/
def compile_risk_factors (results : Results) : List String :=
  ((getP results.network).riskFactors.getD []).map (fun f => "network:" ++ f) ++
  ((getP results.entity).riskFactors.getD []).map (fun f => "entity:" ++ f) ++
  ((getP results.behavioral).riskFactors.getD []).map (fun f => "behavioral:" ++ f) ++
  ((getP results.payment).riskFactors.getD []).map (fun f => "payment:" ++ f) ++
  ((getP results.legal).riskFactors.getD []).map (fun f => "legal:" ++ f)

/-- One entry of the executive summary's `key_findings` list. -/
structure Finding where
  category : String
  severity : String
  finding : String
  deriving Repr, DecidableEq

/-- The dict returned by `generate_executive_summary`. -/
structure Summary where
  overall_risk_level : String
  recommendation : String
  key_findings : List Finding
  deriving Repr, DecidableEq

/-- `generate_executive_summary`. -/
def generate_executive_summary (risk_score : ℚ) (recommendation : String)
    (results : Results) : Summary :=
  let network_data := getP results.network
  let entity_data := getP results.entity
  let behavioral_data := getP results.behavioral
  let matched_entities := entity_data.matchedEntities.getD []
  let anomalies := behavioral_data.detectedAnomalies.getD []
  { overall_risk_level :=
      if risk_score ≥ 0.8 then "CRITICAL"
      else if risk_score ≥ 0.6 then "HIGH"
      else if risk_score ≥ 0.4 then "MEDIUM" else "LOW"
    recommendation := recommendation
    key_findings :=
      (if network_data.riskScore.getD 0 ≥ 0.6 then
        [⟨"Network Analysis", "HIGH",
          "Detected " ++ toString (network_data.riskFactors.getD []).length ++
            " network risk factors"⟩]
       else []) ++
      (if matched_entities ≠ [] then
        [⟨"Entity Resolution", "CRITICAL",
          "Matched " ++ toString matched_entities.length ++ " entities on watchlists"⟩]
       else []) ++
      (if anomalies.length ≥ 3 then
        [⟨"Behavioral Analysis", "MEDIUM",
          "Detected " ++ toString anomalies.length ++ " behavioral anomalies"⟩]
       else []) }

/-- The five analysis-lambda invocations: each either returns a payload or
raises (timeout, transport error, ...), modelled as `Except String Payload`. -/
structure Producers where
  network : Except String Payload
  entity : Except String Payload
  behavioral : Except String Payload
  payment : Except String Payload
  legal : Except String Payload

/-- The dict synthesized in an `except` branch of `invoke_parallel_analyses`:
`{'<sig>RiskScore': 0.3, 'error': str(e)}`. -/
def failPayload (e : String) : Payload :=
  { Payload.empty with riskScore := some 0.3, error := some e }

/-- One `try/except` block of `invoke_parallel_analyses`. -/
def invokeOne (p : Except String Payload) : Payload :=
  match p with
  | .ok r => r
  | .error e => failPayload e

/-- `invoke_parallel_analyses`: every configured signal gets an entry, real
or synthesized. -/
def invoke_parallel_analyses (p : Producers) : Results :=
  { network := some (invokeOne p.network)
    entity := some (invokeOne p.entity)
    behavioral := some (invokeOne p.behavioral)
    payment := some (invokeOne p.payment)
    legal := some (invokeOne p.legal) }

/-- The orchestrator's input event; fields the handler reads. -/
structure Event where
  requestId : Option String
  vendorName : Option String
  contactEmail : Option String
  businessDescription : Option String
  taxId : Option String
  sourceIp : Option String
  submittedAt : Option String
  fraudScore : Option ℚ
  contentRiskScore : Option ℚ
  deriving Repr, DecidableEq

/-- The orchestrator's output record. `Option`-valued fields model keys that
are absent from the safe-default record returned by the `except` branch. -/
structure OrchOutput where
  requestId : Option String
  vendorName : Option String
  contactEmail : Option String
  comprehensiveRiskScore : ℚ
  recommendation : String
  networkRiskScore : Option ℚ
  entityRiskScore : Option ℚ
  behavioralRiskScore : Option ℚ
  paymentRiskScore : Option ℚ
  legalRiskScore : Option ℚ
  fraudScore : Option ℚ
  contentRiskScore : Option ℚ
  networkAnalysis : Option Payload
  entityResolution : Option Payload
  behavioralAnalysis : Option Payload
  paymentAnalysis : Option Payload
  legalAnalysis : Option Payload
  allRiskFactors : Option (List String)
  executiveSummary : Option Summary
  error : Option String
  deriving Repr, DecidableEq

/-- `lambda_handler`. The whole body sits in one `try`; `exc = some e` models
an unexpected exception raised anywhere inside it (the pure embedding itself
cannot raise), taken by the `except` branch that returns the safe defaults. -/
def lambda_handler (exc : Option String) (event : Event) (p : Producers) :
    OrchOutput :=
  match exc with
  | some e =>
    { requestId := event.requestId
      vendorName := none
      contactEmail := none
      comprehensiveRiskScore := 0.5
      recommendation := "MANUAL_REVIEW"
      networkRiskScore := none
      entityRiskScore := none
      behavioralRiskScore := none
      paymentRiskScore := none
      legalRiskScore := none
      fraudScore := none
      contentRiskScore := none
      networkAnalysis := none
      entityResolution := none
      behavioralAnalysis := none
      paymentAnalysis := none
      legalAnalysis := none
      allRiskFactors := none
      executiveSummary := none
      error := some e }
  | none =>
    let results := invoke_parallel_analyses p
    let network_risk := (getP results.network).riskScore.getD 0.3
    let entity_risk := (getP results.entity).riskScore.getD 0.3
    let behavioral_risk := (getP results.behavioral).riskScore.getD 0.3
    let payment_risk := (getP results.payment).riskScore.getD 0.3
    let legal_risk := (getP results.legal).riskScore.getD 0.3
    let fraud_risk := event.fraudScore.getD 0.3
    let content_risk := event.contentRiskScore.getD 0.3
    let comprehensive_risk := calculate_comprehensive_risk
      network_risk entity_risk behavioral_risk payment_risk legal_risk
      fraud_risk content_risk
    let recommendation := determine_recommendation comprehensive_risk results
    let all_risk_factors := compile_risk_factors results
    let executive_summary := generate_executive_summary
      comprehensive_risk recommendation results
    { requestId := event.requestId
      vendorName := event.vendorName
      contactEmail := event.contactEmail
      comprehensiveRiskScore := roundTo 3 comprehensive_risk
      recommendation := recommendation
      networkRiskScore := some (roundTo 3 network_risk)
      entityRiskScore := some (roundTo 3 entity_risk)
      behavioralRiskScore := some (roundTo 3 behavioral_risk)
      paymentRiskScore := some (roundTo 3 payment_risk)
      legalRiskScore := some (roundTo 3 legal_risk)
      fraudScore := some (roundTo 3 fraud_risk)
      contentRiskScore := some (roundTo 3 content_risk)
      networkAnalysis := results.network
      entityResolution := results.entity
      behavioralAnalysis := results.behavioral
      paymentAnalysis := results.payment
      legalAnalysis := results.legal
      allRiskFactors := some all_risk_factors
      executiveSummary := some executive_summary
      error := none }

end RiskOrch

namespace CombineScores

/-- Module-level weight `FRAUD_SCORE_WEIGHT = 0.7`. -/
def FRAUD_SCORE_WEIGHT : ℚ := 0.7

/-- Module-level weight `CONTENT_RISK_WEIGHT = 0.3`. -/
def CONTENT_RISK_WEIGHT : ℚ := 0.3

/-- Module-level threshold `MANUAL_REVIEW_THRESHOLD = 0.5`. -/
def MANUAL_REVIEW_THRESHOLD : ℚ := 0.5

/-- Input event of the combine-scores handler; fields the handler reads. -/
structure CombineEvent where
  requestId : Option String
  vendorName : Option String
  contactEmail : Option String
  businessDescription : Option String
  taxId : Option String
  sourceIp : Option String
  submittedAt : Option String
  fraudScore : Option ℚ
  contentRiskScore : Option ℚ
  deriving Repr, DecidableEq

/-- The `details` sub-dict of the combine-scores output. -/
structure CombineDetails where
  fraudWeight : ℚ
  contentWeight : ℚ
  threshold : ℚ
  deriving Repr, DecidableEq

/-- Output record of the combine-scores handler. -/
structure CombineOutput where
  requestId : Option String
  vendorName : Option String
  contactEmail : Option String
  businessDescription : Option String
  taxId : Option String
  sourceIp : Option String
  submittedAt : Option String
  fraudScore : ℚ
  contentRiskScore : ℚ
  combinedRiskScore : ℚ
  recommendation : String
  details : CombineDetails
  deriving Repr, DecidableEq

/-- `lambda_handler` of combine-scores: validates inputs (raising `ValueError`,
modelled as `Except.error`, on missing or out-of-range scores), else returns
the weighted, 2-decimal-rounded combination with a threshold recommendation. -/
def lambda_handler (event : CombineEvent) : Except String CombineOutput :=
  match event.fraudScore with
  | none => .error "fraudScore is required"
  | some fraud_score =>
    match event.contentRiskScore with
    | none => .error "contentRiskScore is required"
    | some content_risk_score =>
      if ¬(0 ≤ fraud_score ∧ fraud_score ≤ 1) then
        .error "fraudScore must be between 0.0 and 1.0"
      else if ¬(0 ≤ content_risk_score ∧ content_risk_score ≤ 1) then
        .error "contentRiskScore must be between 0.0 and 1.0"
      else
        let combined_risk_score := roundTo 2
          (fraud_score * FRAUD_SCORE_WEIGHT + content_risk_score * CONTENT_RISK_WEIGHT)
        let recommendation :=
          if combined_risk_score ≥ MANUAL_REVIEW_THRESHOLD then "MANUAL_REVIEW"
          else "AUTO_APPROVE"
        .ok
          { requestId := event.requestId
            vendorName := event.vendorName
            contactEmail := event.contactEmail
            businessDescription := event.businessDescription
            taxId := event.taxId
            sourceIp := event.sourceIp
            submittedAt := event.submittedAt
            fraudScore := fraud_score
            contentRiskScore := content_risk_score
            combinedRiskScore := combined_risk_score
            recommendation := recommendation
            details :=
              ⟨FRAUD_SCORE_WEIGHT, CONTENT_RISK_WEIGHT, MANUAL_REVIEW_THRESHOLD⟩ }

/-- Spec-side validity predicate: both scores present and each in `[0, 1]`.
Stated from the claim's words, to be compared with the handler's behavior. -/
def validEvent (event : CombineEvent) : Prop :=
  ∃ f c, event.fraudScore = some f ∧ event.contentRiskScore = some c ∧
    0 ≤ f ∧ f ≤ 1 ∧ 0 ≤ c ∧ c ≤ 1

/-- Claim C9: the combine-scores handler raises `ValueError` (returns
`Except.error`) exactly when a score is missing or out of `[0,1]`, producing
no result record; on valid input it returns a record whose
`combinedRiskScore` is `round(0.7*fraudScore + 0.3*contentRiskScore, 2)`. -/
theorem validation_raises_iff_invalid (event : CombineEvent) :
    ((∃ out, lambda_handler event = .ok out) ↔ validEvent event) ∧
    (∀ out, lambda_handler event = .ok out →
      ∃ f c, event.fraudScore = some f ∧ event.contentRiskScore = some c ∧
        out.fraudScore = f ∧ out.contentRiskScore = c ∧
        out.combinedRiskScore =
          roundTo 2 (f * FRAUD_SCORE_WEIGHT + c * CONTENT_RISK_WEIGHT)) := by
  obtain ⟨rid, vn, ce, bd, ti, si, sa, fsc, crs⟩ := event
  constructor
  · constructor
    · rintro ⟨out, hout⟩
      rcases fsc with _ | f
      · exact Except.noConfusion hout
      · rcases crs with _ | c
        · exact Except.noConfusion hout
        · simp only [lambda_handler] at hout
          split_ifs at hout with h1 h2 h3
          · exact ⟨f, c, rfl, rfl, h1.1, h1.2, h2.1, h2.2⟩
          · exact ⟨f, c, rfl, rfl, h1.1, h1.2, h2.1, h2.2⟩
    · rintro ⟨f, c, hf, hc, hf0, hf1, hc0, hc1⟩
      simp only at hf hc
      subst hf
      subst hc
      exact ⟨_, by
        simp only [lambda_handler]
        rw [if_neg (not_not_intro ⟨hf0, hf1⟩),
          if_neg (not_not_intro ⟨hc0, hc1⟩)]⟩
  · intro out hout
    rcases fsc with _ | f
    · exact Except.noConfusion hout
    · rcases crs with _ | c
      · exact Except.noConfusion hout
      · simp only [lambda_handler] at hout
        split_ifs at hout with h1 h2 h3
        · injection hout with hrec
          subst hrec
          exact ⟨f, c, rfl, rfl, rfl, rfl, rfl⟩
        · injection hout with hrec
          subst hrec
          exact ⟨f, c, rfl, rfl, rfl, rfl, rfl⟩

/-- Witness for C9: the event with both scores `0.5` is valid and the
handler returns a result record for it. -/
theorem validation_raises_iff_invalid_witness :
    validEvent ⟨none, none, none, none, none, none, none,
      some 0.5, some 0.5⟩ ∧
    ∃ out, lambda_handler ⟨none, none, none, none, none, none, none,
      some 0.5, some 0.5⟩ = .ok out := by
  have hv : validEvent ⟨none, none, none, none, none, none, none,
      some 0.5, some 0.5⟩ :=
    ⟨0.5, 0.5, rfl, rfl, by norm_num, by norm_num, by norm_num, by norm_num⟩
  exact ⟨hv, (validation_raises_iff_invalid _).1.mpr hv⟩

end CombineScores

namespace EntityRes

/-- Python `max(risks)` on a non-empty list (`0` on the empty list, unreached). -/
def listMax : List ℚ → ℚ
  | [] => 0
  | h :: t => t.foldl max h

/-- `calculate_entity_risk`: the maximum dominates when it signals a
sanctions match (`≥ 0.95`), else a 60/40 blend of maximum and average. -/
def calculate_entity_risk (risks : List ℚ) : ℚ :=
  if risks = [] then 0
  else
    let max_risk := listMax risks
    if max_risk ≥ 0.95 then max_risk
    else
      let avg_risk := risks.sum / (risks.length : ℚ)
      max_risk * 0.6 + avg_risk * 0.4

theorem le_foldl_max (t : List ℚ) (a : ℚ) : a ≤ t.foldl max a := by
  induction t generalizing a with
  | nil => exact le_rfl
  | cons x t ih =>
    simp only [List.foldl_cons]
    exact le_trans (le_max_left a x) (ih (max a x))

theorem foldl_max_le (t : List ℚ) :
    ∀ a b, a ≤ b → (∀ x ∈ t, x ≤ b) → t.foldl max a ≤ b := by
  induction t with
  | nil => intro a b ha _; simpa using ha
  | cons x t ih =>
    intro a b ha ht
    simp only [List.foldl_cons]
    exact ih (max a x) b (max_le ha (ht x (List.mem_cons_self x t)))
      (fun y hy => ht y (List.mem_cons_of_mem _ hy))

theorem mem_le_foldl_max (t : List ℚ) :
    ∀ a x, x ∈ t → x ≤ t.foldl max a := by
  induction t with
  | nil => intro a x hx; simp at hx
  | cons y t ih =>
    intro a x hx
    simp only [List.foldl_cons]
    rcases List.mem_cons.mp hx with rfl | hx2
    · exact le_trans (le_max_right a x) (le_foldl_max t (max a x))
    · exact ih (max a y) x hx2

theorem le_listMax (l : List ℚ) (x : ℚ) (hx : x ∈ l) : x ≤ listMax l := by
  cases l with
  | nil => simp at hx
  | cons y t =>
    rcases List.mem_cons.mp hx with rfl | hx2
    · exact le_foldl_max t x
    · exact mem_le_foldl_max t y x hx2

theorem listMax_le (l : List ℚ) (b : ℚ) (hne : l ≠ [])
    (h : ∀ x ∈ l, x ≤ b) : listMax l ≤ b := by
  cases l with
  | nil => exact absurd rfl hne
  | cons x t =>
    exact foldl_max_le t x b (h x (List.mem_cons_self x t))
      (fun y hy => h y (List.mem_cons_of_mem _ hy))

/-- Claim C10: on a non-empty list of sub-risks in `[0,1]`,
`calculate_entity_risk` lies between the average and the maximum of the
list (equal to the maximum when that is `≥ 0.95`, else the 60/40 blend),
hence lies in `[0,1]`; the empty list yields `0`. -/
theorem entity_risk_between_avg_and_max (risks : List ℚ) (hne : risks ≠ [])
    (h : ∀ r ∈ risks, 0 ≤ r ∧ r ≤ 1) :
    risks.sum / (risks.length : ℚ) ≤ calculate_entity_risk risks ∧
    calculate_entity_risk risks ≤ listMax risks ∧
    0 ≤ calculate_entity_risk risks ∧
    calculate_entity_risk risks ≤ 1 ∧
    (0.95 ≤ listMax risks → calculate_entity_risk risks = listMax risks) ∧
    (listMax risks < 0.95 → calculate_entity_risk risks =
      listMax risks * 0.6 + risks.sum / (risks.length : ℚ) * 0.4) ∧
    calculate_entity_risk [] = 0 := by
  have hlen : (0:ℚ) < (risks.length : ℚ) := by
    have hp := List.length_pos.mpr hne
    exact_mod_cast hp
  have hmax1 : listMax risks ≤ 1 :=
    listMax_le risks 1 hne (fun x hx => (h x hx).2)
  have hmax0 : 0 ≤ listMax risks := by
    cases risks with
    | nil => exact absurd rfl hne
    | cons x t =>
      exact le_trans (h x (List.mem_cons_self x t)).1
        (le_listMax _ x (List.mem_cons_self x t))
  have hsum0 : 0 ≤ risks.sum := List.sum_nonneg (fun x hx => (h x hx).1)
  have havg0 : 0 ≤ risks.sum / (risks.length : ℚ) :=
    div_nonneg hsum0 (le_of_lt hlen)
  have hsum_le : risks.sum ≤ (risks.length : ℚ) * listMax risks := by
    have h2 := List.sum_le_card_nsmul risks (listMax risks)
      (fun x hx => le_listMax risks x hx)
    rwa [nsmul_eq_mul] at h2
  have havg_le : risks.sum / (risks.length : ℚ) ≤ listMax risks := by
    rw [div_le_iff₀ hlen]
    linarith [hsum_le]
  by_cases hcrit : (0.95:ℚ) ≤ listMax risks
  · have hval : calculate_entity_risk risks = listMax risks := by
      simp only [calculate_entity_risk]
      rw [if_neg hne, if_pos hcrit]
    rw [hval]
    exact ⟨havg_le, le_rfl, hmax0, hmax1, fun _ => rfl,
      fun hlt => absurd hcrit (not_le.mpr hlt), rfl⟩
  · have hval : calculate_entity_risk risks =
        listMax risks * 0.6 + risks.sum / (risks.length : ℚ) * 0.4 := by
      simp only [calculate_entity_risk]
      rw [if_neg hne, if_neg hcrit]
    rw [hval]
    push_neg at hcrit
    refine ⟨by linarith, by linarith, by linarith, by linarith,
      fun h5 => absurd h5 (not_le.mpr hcrit), fun _ => rfl, rfl⟩

/-- Witness for C10: the list `[1/2, 1]` yields an entity risk in `[0,1]`. -/
theorem entity_risk_between_avg_and_max_witness :
    (0:ℚ) ≤ calculate_entity_risk [1/2, 1] ∧
    calculate_entity_risk [1/2, 1] ≤ 1 :=
  ⟨(entity_risk_between_avg_and_max [1/2, 1] (by simp)
      (by intro r hr; simp at hr; rcases hr with rfl | rfl <;> norm_num)).2.2.1,
   (entity_risk_between_avg_and_max [1/2, 1] (by simp)
      (by intro r hr; simp at hr; rcases hr with rfl | rfl <;>
        norm_num)).2.2.2.1⟩

end EntityRes

namespace RiskOrch

/-- Claim C1: if the entity result's `complianceStatus` is `'BLOCKED'` or any
matched entity has severity `'CRITICAL'`, `determine_recommendation` returns
`'BLOCKED'` for every composite score, the structural check being evaluated
before any score band. -/
theorem block_precedence (s : ℚ) (results : Results)
    (h : (getP results.entity).complianceStatus = some "BLOCKED" ∨
      ∃ m ∈ (getP results.entity).matchedEntities.getD [],
        m.severity = some "CRITICAL") :
    determine_recommendation s results = "BLOCKED" := by
  rcases h with h | ⟨m, hm, hsev⟩
  · simp [determine_recommendation, h]
  · have hany : ((getP results.entity).matchedEntities.getD []).any
        (fun m => m.severity == some "CRITICAL") = true := by
      simp only [List.any_eq_true, beq_iff_eq]
      exact ⟨m, hm, hsev⟩
    simp [determine_recommendation, hany]

/-- Witness for C1: a compliance-blocked entity result forces `'BLOCKED'`
even at composite score `0`. -/
theorem block_precedence_witness :
    determine_recommendation 0
      ⟨none, some ⟨none, none, some "BLOCKED", none, none, none⟩,
        none, none, none⟩ = "BLOCKED" :=
  block_precedence 0 _ (Or.inl rfl)

/-- Claim C5: with no structural block, `determine_recommendation` maps the
score through ordered bands, first match winning: `≥ 0.7` manual review,
`≥ 0.5` enhanced due diligence, `≥ 0.3` standard review, else auto-approve. -/
theorem recommendation_score_bands (s : ℚ) (results : Results)
    (h1 : ¬(getP results.entity).complianceStatus = some "BLOCKED")
    (h2 : ∀ m ∈ (getP results.entity).matchedEntities.getD [],
      m.severity ≠ some "CRITICAL") :
    (0.7 ≤ s → determine_recommendation s results = "MANUAL_REVIEW") ∧
    (0.5 ≤ s → s < 0.7 →
      determine_recommendation s results = "ENHANCED_DUE_DILIGENCE") ∧
    (0.3 ≤ s → s < 0.5 →
      determine_recommendation s results = "STANDARD_REVIEW") ∧
    (s < 0.3 → determine_recommendation s results = "AUTO_APPROVE") := by
  have hany : ((getP results.entity).matchedEntities.getD []).any
      (fun m => m.severity == some "CRITICAL") = false := by
    simp only [List.any_eq_false, beq_iff_eq]
    exact h2
  have hd : determine_recommendation s results =
      (if s ≥ 0.7 then "MANUAL_REVIEW"
       else if s ≥ 0.5 then "ENHANCED_DUE_DILIGENCE"
       else if s ≥ 0.3 then "STANDARD_REVIEW" else "AUTO_APPROVE") := by
    simp [determine_recommendation, h1, hany]
  refine ⟨fun h => ?_, fun ha hb => ?_, fun ha hb => ?_, fun h => ?_⟩
  · rw [hd, if_pos h]
  · rw [hd, if_neg (not_le.mpr hb), if_pos ha]
  · rw [hd, if_neg (not_le.mpr (by linarith)), if_neg (not_le.mpr hb), if_pos ha]
  · rw [hd, if_neg (not_le.mpr (by linarith)), if_neg (not_le.mpr (by linarith)),
      if_neg (not_le.mpr h)]

/-- Witness for C5: an unexceptional result set at score `0.8` yields
`'MANUAL_REVIEW'`. -/
theorem recommendation_score_bands_witness :
    determine_recommendation 0.8 ⟨none, none, none, none, none⟩ =
      "MANUAL_REVIEW" :=
  (recommendation_score_bands 0.8 ⟨none, none, none, none, none⟩
    (by simp [getP, Payload.empty]) (by simp [getP, Payload.empty])).1
    (by norm_num)

/-- Counterexample to C2: with every signal score `-1.0` (a buggy producer),
`calculate_comprehensive_risk` returns `-1.0`: the code only applies
`min(1.0, ...)` and never clamps from below, so the result escapes `[0,1]`. -/
theorem comprehensive_risk_escapes_unit_interval :
    ¬(0 ≤ calculate_comprehensive_risk (-1) (-1) (-1) (-1) (-1) (-1) (-1) ∧
      calculate_comprehensive_risk (-1) (-1) (-1) (-1) (-1) (-1) (-1) ≤ 1) := by
  have hv : calculate_comprehensive_risk (-1) (-1) (-1) (-1) (-1) (-1) (-1)
      = -1 := by
    simp only [calculate_comprehensive_risk, weightedSum]
    simp [WEIGHTS]
    norm_num
  rintro ⟨h0, -⟩
  rw [hv] at h0
  norm_num at h0

/-- Claim C2 (amended): when every input signal score lies in `[0,1]`, the
comprehensive risk score lies in `[0,1]`; the code clamps only from above, so
out-of-range inputs are not guarded against. -/
theorem comprehensive_risk_in_unit (network entity behavioral payment legal
    fraud content : ℚ)
    (hn0 : 0 ≤ network) (hn1 : network ≤ 1)
    (he0 : 0 ≤ entity) (he1 : entity ≤ 1)
    (hb0 : 0 ≤ behavioral) (hb1 : behavioral ≤ 1)
    (hp0 : 0 ≤ payment) (hp1 : payment ≤ 1)
    (hl0 : 0 ≤ legal) (hl1 : legal ≤ 1)
    (hf0 : 0 ≤ fraud) (hf1 : fraud ≤ 1)
    (hc0 : 0 ≤ content) (hc1 : content ≤ 1) :
    0 ≤ calculate_comprehensive_risk network entity behavioral payment legal
        fraud content ∧
    calculate_comprehensive_risk network entity behavioral payment legal
        fraud content ≤ 1 := by
  have hw : 0 ≤ weightedSum network entity behavioral payment legal fraud
      content := by
    simp only [weightedSum]
    simp [WEIGHTS]
    nlinarith
  simp only [calculate_comprehensive_risk]
  split_ifs <;>
    refine ⟨le_min (by norm_num) ?_, min_le_left _ _⟩ <;>
    first
      | exact hw
      | exact le_trans (by norm_num) (le_max_right _ _)

/-- Witness for C2 (amended): all signals at `0.5` give a score in `[0,1]`. -/
theorem comprehensive_risk_in_unit_witness :
    0 ≤ calculate_comprehensive_risk 0.5 0.5 0.5 0.5 0.5 0.5 0.5 ∧
    calculate_comprehensive_risk 0.5 0.5 0.5 0.5 0.5 0.5 0.5 ≤ 1 :=
  comprehensive_risk_in_unit 0.5 0.5 0.5 0.5 0.5 0.5 0.5
    (by norm_num) (by norm_num) (by norm_num) (by norm_num) (by norm_num)
    (by norm_num) (by norm_num) (by norm_num) (by norm_num) (by norm_num)
    (by norm_num) (by norm_num) (by norm_num) (by norm_num)

/-- Claim C6: the entity/legal override floors are monotone: the returned
score always dominates the clamped weighted sum without the overrides; in
particular entity `0.97` and all other signals `0` give at least `0.95`. -/
theorem override_floors_monotone (network entity behavioral payment legal
    fraud content : ℚ) :
    min 1 (weightedSum network entity behavioral payment legal fraud content)
      ≤ calculate_comprehensive_risk network entity behavioral payment legal
          fraud content ∧
    0.95 ≤ calculate_comprehensive_risk 0 0.97 0 0 0 0 0 := by
  constructor
  · simp only [calculate_comprehensive_risk]
    split_ifs with ha hb hb
    · exact min_le_min le_rfl (le_trans (le_max_left _ _) (le_max_left _ _))
    · exact min_le_min le_rfl (le_max_left _ _)
    · exact min_le_min le_rfl (le_max_left _ _)
    · exact le_rfl
  · have hv : calculate_comprehensive_risk 0 0.97 0 0 0 0 0 = 0.95 := by
      simp only [calculate_comprehensive_risk, weightedSum]
      simp [WEIGHTS]
      norm_num
    rw [hv]

/-- Claim C7: the seven configured weights sum to `1`, and when every signal
score equals the same `v ∈ [0,1]` the comprehensive risk score equals `v`
exactly (the overrides are no-ops there since `max v floor = v` whenever
they trigger). -/
theorem equal_scores_fixed_point (v : ℚ) (h0 : 0 ≤ v) (h1 : v ≤ 1) :
    (WEIGHTS "network" + WEIGHTS "entity" + WEIGHTS "behavioral" +
      WEIGHTS "payment" + WEIGHTS "legal" + WEIGHTS "fraud" +
      WEIGHTS "content" = 1) ∧
    calculate_comprehensive_risk v v v v v v v = v := by
  constructor
  · simp [WEIGHTS]
    norm_num
  · have hw : weightedSum v v v v v v v = v := by
      simp only [weightedSum]
      simp [WEIGHTS]
      ring
    simp only [calculate_comprehensive_risk, hw]
    split_ifs with ha hb hb
    · rw [max_eq_left hb, max_eq_left (le_trans (by norm_num) hb),
        min_eq_right h1]
    · rw [max_eq_left ha, min_eq_right h1]
    · rw [max_eq_left hb, min_eq_right h1]
    · rw [min_eq_right h1]

/-- Witness for C7: all signals at `0.5` give exactly `0.5`. -/
theorem equal_scores_fixed_point_witness :
    calculate_comprehensive_risk 0.5 0.5 0.5 0.5 0.5 0.5 0.5 = 0.5 :=
  (equal_scores_fixed_point 0.5 (by norm_num) (by norm_num)).2

/-- Counterexample to C3: when the legal producer fails, its synthesized
entry holds only `legalRiskScore = 0.3` and an `error` string — no
`legalRiskFactors` — so `compile_risk_factors` does not contain
`'legal:analysis_error'`. -/
theorem failed_signal_has_no_error_factor_tag :
    (invoke_parallel_analyses
        ⟨.ok Payload.empty, .ok Payload.empty, .ok Payload.empty,
          .ok Payload.empty, .error "timeout"⟩).legal =
      some { Payload.empty with riskScore := some 0.3, error := some "timeout" } ∧
    ¬("legal:analysis_error" ∈ compile_risk_factors
        (invoke_parallel_analyses
          ⟨.ok Payload.empty, .ok Payload.empty, .ok Payload.empty,
            .ok Payload.empty, .error "timeout"⟩)) := by
  constructor
  · rfl
  · simp [compile_risk_factors, invoke_parallel_analyses, invokeOne,
      failPayload, getP, Payload.empty]

/-- Claim C3 (amended): whichever one of the five configured producers
fails, every configured signal still gets an entry: the failed one carries
the default score `0.3` plus the error message (but no factor tag, so no
`'<signal-name>:analysis_error'` entry reaches `compile_risk_factors`,
whose output simply omits the failed signal's contribution), while the
other entries are the producers' real results. -/
theorem single_failure_isolation (pn pe pb pp pl : Payload) (e : String) :
    ((invoke_parallel_analyses ⟨.error e, .ok pe, .ok pb, .ok pp, .ok pl⟩) =
      { network := some { Payload.empty with riskScore := some 0.3, error := some e },
        entity := some pe, behavioral := some pb, payment := some pp,
        legal := some pl } ∧
     compile_risk_factors
        (invoke_parallel_analyses ⟨.error e, .ok pe, .ok pb, .ok pp, .ok pl⟩) =
      (pe.riskFactors.getD []).map (fun f => "entity:" ++ f) ++
      (pb.riskFactors.getD []).map (fun f => "behavioral:" ++ f) ++
      (pp.riskFactors.getD []).map (fun f => "payment:" ++ f) ++
      (pl.riskFactors.getD []).map (fun f => "legal:" ++ f)) ∧
    ((invoke_parallel_analyses ⟨.ok pn, .error e, .ok pb, .ok pp, .ok pl⟩) =
      { network := some pn,
        entity := some { Payload.empty with riskScore := some 0.3, error := some e },
        behavioral := some pb, payment := some pp, legal := some pl } ∧
     compile_risk_factors
        (invoke_parallel_analyses ⟨.ok pn, .error e, .ok pb, .ok pp, .ok pl⟩) =
      (pn.riskFactors.getD []).map (fun f => "network:" ++ f) ++
      ((pb.riskFactors.getD []).map (fun f => "behavioral:" ++ f) ++
       (pp.riskFactors.getD []).map (fun f => "payment:" ++ f) ++
       (pl.riskFactors.getD []).map (fun f => "legal:" ++ f))) ∧
    ((invoke_parallel_analyses ⟨.ok pn, .ok pe, .error e, .ok pp, .ok pl⟩) =
      { network := some pn, entity := some pe,
        behavioral := some { Payload.empty with riskScore := some 0.3, error := some e },
        payment := some pp, legal := some pl } ∧
     compile_risk_factors
        (invoke_parallel_analyses ⟨.ok pn, .ok pe, .error e, .ok pp, .ok pl⟩) =
      (pn.riskFactors.getD []).map (fun f => "network:" ++ f) ++
      (pe.riskFactors.getD []).map (fun f => "entity:" ++ f) ++
      ((pp.riskFactors.getD []).map (fun f => "payment:" ++ f) ++
       (pl.riskFactors.getD []).map (fun f => "legal:" ++ f))) ∧
    ((invoke_parallel_analyses ⟨.ok pn, .ok pe, .ok pb, .error e, .ok pl⟩) =
      { network := some pn, entity := some pe, behavioral := some pb,
        payment := some { Payload.empty with riskScore := some 0.3, error := some e },
        legal := some pl } ∧
     compile_risk_factors
        (invoke_parallel_analyses ⟨.ok pn, .ok pe, .ok pb, .error e, .ok pl⟩) =
      (pn.riskFactors.getD []).map (fun f => "network:" ++ f) ++
      (pe.riskFactors.getD []).map (fun f => "entity:" ++ f) ++
      (pb.riskFactors.getD []).map (fun f => "behavioral:" ++ f) ++
      (pl.riskFactors.getD []).map (fun f => "legal:" ++ f)) ∧
    ((invoke_parallel_analyses ⟨.ok pn, .ok pe, .ok pb, .ok pp, .error e⟩) =
      { network := some pn, entity := some pe, behavioral := some pb,
        payment := some pp,
        legal := some { Payload.empty with riskScore := some 0.3, error := some e } } ∧
     compile_risk_factors
        (invoke_parallel_analyses ⟨.ok pn, .ok pe, .ok pb, .ok pp, .error e⟩) =
      (pn.riskFactors.getD []).map (fun f => "network:" ++ f) ++
      (pe.riskFactors.getD []).map (fun f => "entity:" ++ f) ++
      (pb.riskFactors.getD []).map (fun f => "behavioral:" ++ f) ++
      (pp.riskFactors.getD []).map (fun f => "payment:" ++ f)) := by
  refine ⟨⟨rfl, ?_⟩, ⟨rfl, ?_⟩, ⟨rfl, ?_⟩, ⟨rfl, ?_⟩, ⟨rfl, ?_⟩⟩ <;>
    simp [compile_risk_factors, invoke_parallel_analyses, invokeOne,
      failPayload, getP, Payload.empty]

/-- Counterexample to C4: the orchestrator's safe-default record carries no
risk factor at all (no `allRiskFactors` key), only an `error` string, so it
does not contain the single riskFactor `'analysis_error'` the claim states. -/
theorem safe_default_lacks_error_risk_factor :
    ¬((lambda_handler (some "boom")
        ⟨none, none, none, none, none, none, none, none, none⟩
        ⟨.ok Payload.empty, .ok Payload.empty, .ok Payload.empty,
          .ok Payload.empty, .ok Payload.empty⟩).allRiskFactors =
      some ["analysis_error"]) := by
  simp [lambda_handler]

/-- Claim C4 (amended): whenever an internal step raises, `lambda_handler`
returns (never raises) the safe-default record with `comprehensiveRiskScore
0.5`, recommendation `'MANUAL_REVIEW'` and the error message — but with no
risk-factor list. -/
theorem handler_safe_default_on_exception (e : String) (event : Event)
    (p : Producers) :
    (lambda_handler (some e) event p).comprehensiveRiskScore = 0.5 ∧
    (lambda_handler (some e) event p).recommendation = "MANUAL_REVIEW" ∧
    (lambda_handler (some e) event p).error = some e ∧
    (lambda_handler (some e) event p).allRiskFactors = none :=
  ⟨rfl, rfl, rfl, rfl⟩

/-- Band function from the claim's words (`≥ 0.8` CRITICAL, `≥ 0.6` HIGH,
`≥ 0.4` MEDIUM, else LOW), to be compared with the implementation. -/
def specRiskLevel (s : ℚ) : String :=
  if s ≥ 0.8 then "CRITICAL"
  else if s ≥ 0.6 then "HIGH"
  else if s ≥ 0.4 then "MEDIUM" else "LOW"

/-- Counterexample to C8: with a network score of `0.9` (band CRITICAL) and a
legal score of `0.9`, the summary has exactly one key finding, for the
network signal, with hard-coded severity `'HIGH'` — not the band-derived
`'CRITICAL'` — and the legal signal yields no finding at all. -/
theorem summary_severity_not_band_derived :
    (generate_executive_summary 0 "AUTO_APPROVE"
        ⟨some { Payload.empty with riskScore := some 0.9 }, none, none, none,
          some { Payload.empty with riskScore := some 0.9 }⟩).key_findings =
      [⟨"Network Analysis", "HIGH", "Detected 0 network risk factors"⟩] ∧
    ("HIGH" : String) ≠ "CRITICAL" := by
  constructor
  · norm_num [generate_executive_summary, getP, Payload.empty]
    rfl
  · decide

/-- Claim C8 (amended): the overall risk level is derived purely from the
composite score by the claimed bands, but key findings are produced only for
three signals with fixed severities: `'Network Analysis'`/`'HIGH'` exactly
when the network score is `≥ 0.6`, `'Entity Resolution'`/`'CRITICAL'`
exactly when `matchedEntities` is non-empty, and `'Behavioral
Analysis'`/`'MEDIUM'` exactly when at least three anomalies were detected;
severities are not derived from score bands and the other signals never
yield findings. -/
theorem summary_level_bands_and_fixed_findings (s : ℚ) (rec : String)
    (results : Results) :
    (generate_executive_summary s rec results).overall_risk_level =
      specRiskLevel s ∧
    (generate_executive_summary s rec results).recommendation = rec ∧
    (generate_executive_summary s rec results).key_findings =
      (if (getP results.network).riskScore.getD 0 ≥ 0.6 then
        [⟨"Network Analysis", "HIGH",
          "Detected " ++
            toString ((getP results.network).riskFactors.getD []).length ++
            " network risk factors"⟩]
       else []) ++
      (if (getP results.entity).matchedEntities.getD [] ≠ [] then
        [⟨"Entity Resolution", "CRITICAL",
          "Matched " ++
            toString ((getP results.entity).matchedEntities.getD []).length ++
            " entities on watchlists"⟩]
       else []) ++
      (if ((getP results.behavioral).detectedAnomalies.getD []).length ≥ 3 then
        [⟨"Behavioral Analysis", "MEDIUM",
          "Detected " ++
            toString
              ((getP results.behavioral).detectedAnomalies.getD []).length ++
            " behavioral anomalies"⟩]
       else []) ∧
    (∀ fd ∈ (generate_executive_summary s rec results).key_findings,
      fd.severity = "HIGH" ∨ fd.severity = "CRITICAL" ∨
        fd.severity = "MEDIUM") := by
  refine ⟨rfl, rfl, rfl, ?_⟩
  intro fd hfd
  simp only [generate_executive_summary, List.mem_append] at hfd
  rcases hfd with (hfd | hfd) | hfd <;>
    [skip; skip; skip] <;>
    (revert hfd; split_ifs <;> simp <;> intro h <;> subst h <;> simp)

/-- Witness for C8 (amended): at composite score `0.9` the overall risk
level equals the claim-side band function's value. -/
theorem summary_level_bands_witness :
    (generate_executive_summary 0.9 "AUTO_APPROVE"
        ⟨none, none, none, none, none⟩).overall_risk_level =
      specRiskLevel 0.9 :=
  (summary_level_bands_and_fixed_findings 0.9 "AUTO_APPROVE"
    ⟨none, none, none, none, none⟩).1

end RiskOrch
